import Mathlib

/-!
Shallow embedding of the three nook ingestion jobs
(`github_trending.py`, `hacker_news.py`, `tech_feed.py`) and their shared
lambda entry-point gate. External collaborators (HTTP, the blob store, the
generative-text client, base64/JSON decoding, HTML parsing) are modelled as
explicit function parameters or small executable stand-ins; everything the
repository's own code does is translated statement by statement.
-/

set_option maxRecDepth 20000

namespace Nook

/-! ### Python-semantics helpers -/

/-- Python `str(x)` applied to an `Optional[str]`: `None` prints as `"None"`. -/
def pyStrOpt : Option String → String
  | none => "None"
  | some s => s

/-- Python `x or default` for an `Optional[str]` `x`: `None` and the empty
string are falsy, any other string is returned unchanged. -/
def pyOrDefault : Option String → String → String
  | none, d => d
  | some s, d => if s = "" then d else s

/-- Python `str.isspace()`: true iff the string is nonempty and every
character is whitespace (ASCII-faithful model). -/
def pyIsSpace (s : String) : Bool :=
  !s.isEmpty && s.all Char.isWhitespace

/-- Model of `BeautifulSoup(text, "html.parser").get_text()` on plain
tag-only markup (the HTML parsing library is an out-of-scope external
collaborator per the spec): drops every `<...>` span and keeps the rest. -/
def stripTagsAux : Bool → List Char → List Char
  | _, [] => []
  | _, '<' :: rest => stripTagsAux true rest
  | true, '>' :: rest => stripTagsAux false rest
  | true, _ :: rest => stripTagsAux true rest
  | false, c :: rest => c :: stripTagsAux false rest

/-- HTML-tag stripping on strings (see `stripTagsAux`). -/
def stripTags (s : String) : String :=
  String.mk (stripTagsAux false s.data)

/-- `"\n---\n".join(summaries)`, the digest separator used by all three
`_store_summaries` implementations. -/
def joinSep (l : List String) : String :=
  String.intercalate "\n---\n" l

/-! ### Shared lambda entry point

All three files define the same `lambda_handler` gate verbatim (only the
job and the success message differ). The invocation event is modelled by
the fields the handler actually reads; `base64.b64decode(...).decode("utf-8")`
and `json.loads(...).get("source")` are modelled as oracle functions
(`none` = the corresponding exception), since both are external library
calls. -/

/-- The fields of the invocation `event` dict that `lambda_handler` reads:
`event.get("source")`, `"requestContext" in event`,
`event.get("requestContext", \x7b\x7d).get("http", \x7b\x7d).get("method")`,
`event.get("body")` and `event.get("isBase64Encoded", False)`. -/
structure LambdaEvent where
  source : Option String
  hasRequestContext : Bool
  httpMethod : Option String
  body : Option String
  isBase64Encoded : Bool

/-- The handler's return value: an HTTP-style dict with `statusCode`,
JSON `headers` and a `body`, or a bare `\x7b"statusCode": n\x7d`. -/
inductive LambdaResponse where
  | withBody (statusCode : Nat) (body : String)
  | bare (statusCode : Nat)
deriving DecidableEq, Repr

/-- The body string the handler feeds to `json.loads`: `event.get("body", "\x7b\x7d")`,
then, when `isBase64Encoded`, base64+UTF-8 decoding with fallback to `"\x7b\x7d"`
on `binascii.Error`/`UnicodeDecodeError` (`decodeB64 = none`). -/
def effectiveBodyStr (decodeB64 : String → Option String) (ev : LambdaEvent) : String :=
  let b := ev.body.getD "\x7b\x7d"
  if ev.isBase64Encoded then (decodeB64 b).getD "\x7b\x7d" else b

/-- The gate deciding `is_trigger_event`: top-level `source == "aws.events"`,
or an HTTP POST envelope whose (decoded) body parses as JSON
(`parseSource bodyStr = some srcOpt`, with `srcOpt` the body's `source`
value; `none` = `json.JSONDecodeError`) carrying `source == "aws.events"`. -/
def isTriggerEvent (decodeB64 : String → Option String)
    (parseSource : String → Option (Option String)) (ev : LambdaEvent) : Bool :=
  if ev.source = some "aws.events" then true
  else if ev.hasRequestContext && (ev.httpMethod = some "POST" : Bool) then
    match parseSource (effectiveBodyStr decodeB64 ev) with
    | some srcOpt => srcOpt = some "aws.events"
    | none => false
  else false

/-- The JSON body returned with status 400 for recognized-but-invalid HTTP
requests: `json.dumps` of the fixed invalid-request message. -/
def invalidRequestBody : String :=
  "\x7b\"message\": \"Invalid request: Expected \x27source: aws.events\x27 in POST body\"\x7d"

/-- `lambda_handler`, shared shape of all three jobs. `jobName` is the text
used in the success message; `jobResult` is what running the job does
(`.error e` = an exception with message `e` escaping the job). Returns the
response together with a flag recording whether the job was run. -/
def lambda_handler (decodeB64 : String → Option String)
    (parseSource : String → Option (Option String))
    (jobName : String) (jobResult : Except String Unit)
    (ev : LambdaEvent) : LambdaResponse × Bool :=
  if isTriggerEvent decodeB64 parseSource ev then
    match jobResult with
    | .ok _ =>
        (.withBody 200 ("\x7b\"message\": \"" ++ jobName ++ " triggered successfully\"\x7d"), true)
    | .error e =>
        if ev.hasRequestContext then
          (.withBody 500 ("\x7b\"message\": \"Internal server error: " ++ e ++ "\"\x7d"), true)
        else
          (.bare 500, true)
  else
    if ev.hasRequestContext then
      (.withBody 400 invalidRequestBody, false)
    else
      (.bare 400, false)

/-! ### GitHub Trending job (`github_trending.py`) -/

/-- `Repository` dataclass. -/
structure Repository where
  name : String
  description : Option String
  link : String
  stars : Nat

/-- `GithubTrending._stylize_repository_info`: fills `_MARKDOWN_FORMAT`
with title, score, link and `repository.description or "No description"`. -/
def stylize_repository_info (r : Repository) : String :=
  "\n# " ++ r.name ++ "\n\n**Score**: " ++ toString r.stars ++
    "\n\n[View Link](" ++ r.link ++ ")\n\n" ++
    pyOrDefault r.description "No description" ++ "\n"

/-- `Config.url_format.format(language=language)`. -/
def url_format (language : String) : String :=
  "https://github.com/trending/" ++ language ++ "?since=daily"

/-- The markdown fragments accumulated by `GithubTrending.__call__`:
per language, retrieval failures (`retrieve = .error`, covering the
`requests.get`/parse work of `_retrieve_repositories`) are caught, logged
and skipped; successes contribute one stylized entry per repository. -/
def gtMarkdowns (retrieve : String → Except String (List Repository))
    (languages : List String) : List String :=
  languages.flatMap fun language =>
    match retrieve (url_format language) with
    | .ok repos => repos.map stylize_repository_info
    | .error _ => []

/-- `GithubTrending.__call__` followed by `_store_summaries`: the run's
effect on the blob store, as the list of (key, body) writes it performs.
The write is unconditional. -/
def githubTrendingCall (retrieve : String → Except String (List Repository))
    (languages : List String) (today : String) : List (String × String) :=
  [("github_trending/" ++ today ++ ".md", joinSep (gtMarkdowns retrieve languages))]

/-! ### Hacker News job (`hacker_news.py`) -/

/-- `Story` dataclass: `text` holds `story.get("text") if summary is None
else summary` at construction. -/
structure Story where
  title : String
  score : Int
  url : Option String
  text : Option String

/-- The raw item dict fetched by `_get_story`, restricted to the keys the
job reads (`title`, `score`, `url`, `text`). -/
structure RawStory where
  title : String
  score : Int
  url : Option String
  text : Option String

/-- `HackerNewsRetriever._cleanse_text`: `""` for falsy input, else
HTML-tag stripping via the parsing library. -/
def cleanse_text (text : String) : String :=
  if text = "" then "" else stripTags text

/-- The `text` field stored for one story by `_get_top_stories` steps 4-5:
when the raw text is truthy and its (raw) length lies strictly between 100
and 10000, the stored value is the summarizer's output on the cleansed text
(`summ title cleansed`, modelling `generate_content` on the fixed template);
when the raw text is truthy but outside that band, the cleansed text; when
the raw text is falsy, `story.get("text")` itself. -/
def processStoryText (summ : String → String → String) (title : String)
    (text : Option String) : Option String :=
  match text with
  | none => none
  | some t =>
      if t = "" then some t
      else if 100 < t.length ∧ t.length < 10000 then some (summ title (cleanse_text t))
      else some (cleanse_text t)

/-- `Config.hacker_news_num_top_stories`. -/
def hacker_news_num_top_stories : Nat := 30

/-- `HackerNewsRetriever._get_top_stories`: take the first 30 top-story
ids, fetch each (`getStory`), drop stories with `score < 20`, and build
`Story` records with the text handling of `processStoryText`. -/
def get_top_stories (summ : String → String → String) (ids : List Nat)
    (getStory : Nat → RawStory) : List Story :=
  ((ids.take hacker_news_num_top_stories).map getStory).filterMap fun s =>
    if s.score < 20 then none
    else some ⟨s.title, s.score, s.url, processStoryText summ s.title s.text⟩

/-- `HackerNewsRetriever._stylize_story`: a link line when `story.url` is
truthy, otherwise `story.text` (Python renders a `None` text as `"None"`). -/
def stylize_story (s : Story) : String :=
  let urlOrText :=
    match s.url with
    | some u => if u = "" then pyStrOpt s.text else "[View Link](" ++ u ++ ")"
    | none => pyStrOpt s.text
  "\n# " ++ s.title ++ "\n\n**Score**: " ++ toString s.score ++ "\n\n" ++ urlOrText ++ "\n"

/-- `HackerNewsRetriever.__call__` followed by `_store_summaries`: the
run's blob-store writes. When no stories survive, the method returns
before writing. -/
def hackerNewsCall (summ : String → String → String) (ids : List Nat)
    (getStory : Nat → RawStory) (today : String) : List (String × String) :=
  let stories := get_top_stories summ ids getStory
  if stories.isEmpty then []
  else [("hacker_news/" ++ today ++ ".md", joinSep (stories.map stylize_story))]

/-! ### Tech feed job (`tech_feed.py`) -/

/-- One feed entry, restricted to the fields `TechFeed` reads. The date
fields model `entry.get("date_parsed")` / `entry.get("published_parsed")`
followed by `datetime.fromtimestamp(time.mktime(...))`: the outer `Option`
is presence of the struct (truthiness), the inner `Option Int` is the
conversion outcome (`none` = the conversion raised). -/
structure FeedEntry where
  title : String
  link : String
  date_parsed : Option (Option Int)
  published_parsed : Option (Option Int)
deriving DecidableEq, Repr

/-- `entry.get("date_parsed") or entry.get("published_parsed")`. -/
def entryDate (e : FeedEntry) : Option (Option Int) :=
  match e.date_parsed with
  | some d => some d
  | none => e.published_parsed

/-- `Config.tech_feed_max_entries_per_day`. -/
def tech_feed_max_entries_per_day : Nat := 10

/-- `Config.threshold_days`. -/
def threshold_days : Nat := 1

/-- `self._threshold = datetime.now() - timedelta(days=Config.threshold_days)`,
with datetimes as integer timestamps (seconds). -/
def techFeedThreshold (now : Int) : Int :=
  now - threshold_days * 86400

/-- `TechFeed._filter_entries`: skip entries with no (truthy) date struct,
skip entries whose conversion raises, keep exactly those whose converted
publish date is strictly greater than the threshold. -/
def filter_entries (threshold : Int) (entries : List FeedEntry) : List FeedEntry :=
  entries.filter fun e =>
    match entryDate e with
    | none => false
    | some none => false
    | some (some d) => threshold < d

/-- The per-feed cap applied in `TechFeed.__call__`:
`if len(entries) > Config.tech_feed_max_entries_per_day: entries = entries[:cap]`. -/
def capEntries (entries : List FeedEntry) : List FeedEntry :=
  if entries.length > tech_feed_max_entries_per_day then
    entries.take tech_feed_max_entries_per_day
  else entries

/-- `Article` dataclass, restricted to the fields the formatter and the
summarizer read (the `soup` field is never used downstream). -/
structure Article where
  feed_name : String
  title : String
  url : String
  text : String

/-- `TechFeed._retrieve_article`: `fetch link` models the
`requests.get` + soup text extraction (`.ok text` = extracted page text,
`.error e` = any exception); on failure the method re-raises a wrapped
exception instead of handling it. -/
def retrieve_article (fetch : String → Except String String)
    (e : FeedEntry) (feedName : String) : Except String Article :=
  match fetch e.link with
  | .ok text => .ok ⟨feedName, e.title, e.link, text⟩
  | .error msg => .error ("Error raised while retrieving article: " ++ msg)

/-- `TechFeed._summarize_article`: the fixed placeholder when the body is
empty or whitespace-only, otherwise the summarizer's output on the first
20000 characters (`summ title truncatedText`, modelling `generate_content`
on the fixed template), degrading to an inline error message when the
summarizer raises. -/
def summarize_article (summ : String → String → Except String String)
    (a : Article) : String :=
  if a.text = "" ∨ pyIsSpace a.text then
    "Content could not be retrieved or was empty."
  else
    match summ a.title (a.text.take 20000) with
    | .ok s => s
    | .error e => "Error summarizing content: " ++ e

/-- `TechFeed._stylize_article`: `_MARKDOWN_FORMAT` with title, feed name,
url and the summary. -/
def stylize_article (a : Article) (summary : String) : String :=
  "\n# " ++ a.title ++ "\n\n[View on " ++ a.feed_name ++ "](" ++ a.url ++
    ")\n\n" ++ summary ++ "\n"

/-- The per-entry body of the loop in `TechFeed.__call__`: retrieve the
article (a failure propagates), summarize, stylize. -/
def processEntry (fetch : String → Except String String)
    (summ : String → String → Except String String)
    (feedName : String) (e : FeedEntry) : Except String String :=
  match retrieve_article fetch e feedName with
  | .error msg => .error msg
  | .ok a => .ok (stylize_article a (summarize_article summ a))

/-- The inner entry loop of `TechFeed.__call__` over one feed's capped
entries: an uncaught per-entry exception aborts the rest of the loop. -/
def processEntries (fetch : String → Except String String)
    (summ : String → String → Except String String)
    (feedName : String) : List FeedEntry → Except String (List String)
  | [] => .ok []
  | e :: rest =>
      match processEntry fetch summ feedName e with
      | .error msg => .error msg
      | .ok md =>
          match processEntries fetch summ feedName rest with
          | .error msg => .error msg
          | .ok mds => .ok (md :: mds)

/-- The outer feed loop of `TechFeed.__call__`: parse each feed
(`parseFeed url`, modelling `feedparser.parse`), filter by date, cap, and
process each surviving entry; the accumulated markdowns of all feeds, or
the first uncaught exception. -/
def techFeedFeeds (fetch : String → Except String String)
    (summ : String → String → Except String String)
    (parseFeed : String → List FeedEntry) (threshold : Int) :
    List (String × String) → Except String (List String)
  | [] => .ok []
  | (feedName, feedUrl) :: rest =>
      match processEntries fetch summ feedName
          (capEntries (filter_entries threshold (parseFeed feedUrl))) with
      | .error msg => .error msg
      | .ok mds =>
          match techFeedFeeds fetch summ parseFeed threshold rest with
          | .error msg => .error msg
          | .ok more => .ok (mds ++ more)

/-- `TechFeed.__call__` followed by `_store_summaries`: the run's
blob-store writes, or the uncaught exception that aborted the run (in
which case nothing is written). The write itself is unconditional. -/
def techFeedCall (fetch : String → Except String String)
    (summ : String → String → Except String String)
    (parseFeed : String → List FeedEntry) (threshold : Int)
    (feeds : List (String × String)) (today : String) :
    Except String (List (String × String)) :=
  match techFeedFeeds fetch summ parseFeed threshold feeds with
  | .error msg => .error msg
  | .ok mds => .ok [("tech_feed/" ++ today ++ ".md", joinSep mds)]

/-! ## Theorems for the claims -/

/-- C5: an invocation event that is neither scheduler-shaped (top-level
source ≠ "aws.events") nor carries a requestContext key makes the handler
skip the job and answer with the bare no-action status code 400,
with no headers and no body. -/
theorem handler_unrecognized_shape_bare_400
    (decodeB64 : String → Option String)
    (parseSource : String → Option (Option String))
    (jobName : String) (jobResult : Except String Unit) (ev : LambdaEvent)
    (h1 : ev.source ≠ some "aws.events") (h2 : ev.hasRequestContext = false) :
    lambda_handler decodeB64 parseSource jobName jobResult ev
      = (.bare 400, false) := by
  simp [lambda_handler, isTriggerEvent, h1, h2]

/-- Witness for C5: a concrete event with neither shape gets the bare 400
and the job flag stays false. -/
theorem handler_unrecognized_shape_bare_400_witness :
    lambda_handler (fun _ => none) (fun _ => none) "TechFeed" (.ok ())
      ⟨some "custom.event", false, none, none, false⟩ = (.bare 400, false) :=
  handler_unrecognized_shape_bare_400 _ _ _ _ _ (by decide) rfl

/-- C6: an HTTP POST invocation whose decoded body parses as JSON with a
source value different from "aws.events" gets status 400 with the fixed
JSON error body, and the job does not run. -/
theorem handler_post_wrong_source_400
    (decodeB64 : String → Option String)
    (parseSource : String → Option (Option String))
    (jobName : String) (jobResult : Except String Unit) (ev : LambdaEvent)
    (srcOpt : Option String)
    (h0 : ev.source ≠ some "aws.events")
    (h1 : ev.hasRequestContext = true) (h2 : ev.httpMethod = some "POST")
    (h3 : parseSource (effectiveBodyStr decodeB64 ev) = some srcOpt)
    (h4 : srcOpt ≠ some "aws.events") :
    lambda_handler decodeB64 parseSource jobName jobResult ev
      = (.withBody 400 invalidRequestBody, false) := by
  simp [lambda_handler, isTriggerEvent, h0, h1, h2, h3, h4]

/-- Witness for C6: a concrete POST event whose body carries
source = "custom" yields the 400-with-body response without running the job. -/
theorem handler_post_wrong_source_400_witness :
    lambda_handler (fun _ => none) (fun _ => some (some "custom")) "HackerNewsRetriever"
      (.ok ())
      ⟨none, true, some "POST", some "\x7b\"source\": \"custom\"\x7d", false⟩
      = (.withBody 400 invalidRequestBody, false) :=
  handler_post_wrong_source_400 _ _ _ _ _ (some "custom")
    (by decide) rfl rfl rfl (by decide)

/-- C10: an HTTP POST invocation flagged isBase64Encoded whose body fails
base64/UTF-8 decoding is handled with the body replaced by "\x7b\x7d" (which
json.loads parses to an object with no source key), so the handler answers
400 with the fixed JSON error body and the job does not run — not 500. -/
theorem handler_bad_base64_treated_as_empty_json
    (decodeB64 : String → Option String)
    (parseSource : String → Option (Option String))
    (jobName : String) (jobResult : Except String Unit) (ev : LambdaEvent)
    (h0 : ev.source ≠ some "aws.events")
    (h1 : ev.hasRequestContext = true) (h2 : ev.httpMethod = some "POST")
    (h3 : ev.isBase64Encoded = true)
    (h4 : decodeB64 (ev.body.getD "\x7b\x7d") = none)
    (h5 : parseSource "\x7b\x7d" = some none) :
    lambda_handler decodeB64 parseSource jobName jobResult ev
      = (.withBody 400 invalidRequestBody, false) := by
  simp [lambda_handler, isTriggerEvent, effectiveBodyStr, h0, h1, h2, h3, h4, h5]

/-- Witness for C10: a concrete base64-flagged POST event whose decode
oracle fails yields the 400-with-body response without running the job. -/
theorem handler_bad_base64_treated_as_empty_json_witness :
    lambda_handler (fun _ => none)
      (fun s => if s = "\x7b\x7d" then some none else none) "GithubTrending" (.ok ())
      ⟨none, true, some "POST", some "!!!notbase64!!!", true⟩
      = (.withBody 400 invalidRequestBody, false) :=
  handler_bad_base64_treated_as_empty_json _ _ _ _ _
    (by decide) rfl rfl rfl rfl (by decide)

/-- C4: when zero Hacker News stories survive the score filtering, the run
performs no blob-store write at all. -/
theorem hn_empty_stories_no_write (summ : String → String → String)
    (ids : List Nat) (getStory : Nat → RawStory) (today : String)
    (h : get_top_stories summ ids getStory = []) :
    hackerNewsCall summ ids getStory today = [] := by
  simp [hackerNewsCall, h]

/-- Witness for C4: a single story with score 5 is filtered out and the
run writes nothing. -/
theorem hn_empty_stories_no_write_witness :
    get_top_stories (fun _ _ => "S") [7] (fun _ => ⟨"low", 5, none, none⟩) = []
    ∧ hackerNewsCall (fun _ _ => "S") [7] (fun _ => ⟨"low", 5, none, none⟩)
        "2026-10-12" = [] :=
  ⟨rfl, hn_empty_stories_no_write _ _ _ _ rfl⟩

/-- C7: a tech-feed entry is kept by the date filter if and only if its
parsed publish date exists, converts, and falls strictly after
`now - threshold_days` (default 1 day); entries without a parseable date
are dropped while the remaining entries are filtered normally. -/
theorem tech_feed_date_filter_iff (now : Int) (entries : List FeedEntry)
    (e : FeedEntry) :
    e ∈ filter_entries (techFeedThreshold now) entries
      ↔ e ∈ entries ∧ ∃ d, entryDate e = some (some d) ∧ techFeedThreshold now < d := by
  rw [filter_entries, List.mem_filter]
  refine and_congr_right fun _ => ?_
  rcases h : entryDate e with _ | dv
  · simp [h]
  · rcases dv with _ | d
    · simp [h]
    · simp [h]

/-- C8: when a feed has more date-surviving entries than the per-feed cap
(10), exactly the first 10 entries, in feed order, are processed. -/
theorem tech_feed_cap_first_ten (entries : List FeedEntry)
    (h : tech_feed_max_entries_per_day < entries.length) :
    capEntries entries = entries.take tech_feed_max_entries_per_day
      ∧ (capEntries entries).length = tech_feed_max_entries_per_day
      ∧ ∀ i, i < tech_feed_max_entries_per_day →
          (capEntries entries)[i]? = entries[i]? := by
  have hcap : capEntries entries = entries.take tech_feed_max_entries_per_day := by
    simp [capEntries, h]
  refine ⟨hcap, ?_, ?_⟩
  · rw [hcap, List.length_take]
    omega
  · intro i hi
    rw [hcap, List.getElem?_take, if_pos hi]

/-- Witness for C8: a feed with 11 surviving entries is cut to exactly its
first 10 entries in order. -/
theorem tech_feed_cap_first_ten_witness :
    tech_feed_max_entries_per_day
        < (List.replicate 11 (⟨"t", "l", none, none⟩ : FeedEntry)).length
    ∧ capEntries (List.replicate 11 (⟨"t", "l", none, none⟩ : FeedEntry))
        = (List.replicate 11 (⟨"t", "l", none, none⟩ : FeedEntry)).take
            tech_feed_max_entries_per_day :=
  ⟨by decide, (tech_feed_cap_first_ten _ (by decide)).1⟩

/-- C2 counterexample: a Hacker News story that reaches the formatter with
no URL and no text is rendered with the raw Python `None` in the content
slot, not with a "no content" placeholder. -/
theorem hn_story_without_url_or_text_renders_none :
    stylize_story ⟨"Example", 42, none, none⟩
      = "\n# Example\n\n**Score**: 42\n\nNone\n" := by decide

/-- C2 amended: the GitHub Trending formatter substitutes "No description"
for a missing or empty description and the tech-feed summarizer substitutes
a fixed "could not be retrieved" placeholder for empty/whitespace bodies
(no record is dropped); but the Hacker News formatter renders a story with
neither URL nor text with the literal string "None" rather than a
placeholder. -/
theorem formatter_placeholder_behaviour :
    (∀ r : Repository, r.description = none ∨ r.description = some "" →
        stylize_repository_info r
          = "\n# " ++ r.name ++ "\n\n**Score**: " ++ toString r.stars ++
              "\n\n[View Link](" ++ r.link ++ ")\n\n" ++ "No description" ++ "\n")
    ∧ (∀ (summ : String → String → Except String String) (a : Article),
        a.text = "" ∨ pyIsSpace a.text = true →
        summarize_article summ a = "Content could not be retrieved or was empty.")
    ∧ (∀ s : Story, s.url = none → s.text = none →
        stylize_story s
          = "\n# " ++ s.title ++ "\n\n**Score**: " ++ toString s.score ++
              "\n\n" ++ "None" ++ "\n") := by
  refine ⟨?_, ?_, ?_⟩
  · intro r h
    rcases h with h | h <;> simp [stylize_repository_info, pyOrDefault, h]
  · intro summ a h
    rw [summarize_article, if_pos h]
  · intro s h1 h2
    simp [stylize_story, pyStrOpt, h1, h2]

/-- Witness for C2 amended: the three placeholder behaviours at concrete
records. -/
theorem formatter_placeholder_behaviour_witness :
    stylize_repository_info ⟨"r", none, "L", 5⟩
        = "\n# " ++ "r" ++ "\n\n**Score**: " ++ toString (5 : Nat) ++
            "\n\n[View Link](" ++ "L" ++ ")\n\n" ++ "No description" ++ "\n"
    ∧ summarize_article (fun _ _ => .ok "S") ⟨"F", "T", "U", ""⟩
        = "Content could not be retrieved or was empty."
    ∧ stylize_story ⟨"T", 1, none, none⟩
        = "\n# " ++ "T" ++ "\n\n**Score**: " ++ toString (1 : Int) ++
            "\n\n" ++ "None" ++ "\n" :=
  ⟨formatter_placeholder_behaviour.1 _ (Or.inl rfl),
   formatter_placeholder_behaviour.2.1 _ _ (Or.inl rfl),
   formatter_placeholder_behaviour.2.2 _ rfl rfl⟩

/-- C3 counterexample: a story text made of 15 tag spans has raw length 150
but stripped (plain) length 0 ≤ 100; the code summarizes it (the band is
checked on the raw length), while the claim demands the stripped text be
stored. -/
theorem hn_band_counterexample :
    processStoryText (fun _ _ => "SUMMARIZED") "T"
        (some (String.join (List.replicate 15 "<aaaaaaaa>")))
      = some "SUMMARIZED"
    ∧ (cleanse_text (String.join (List.replicate 15 "<aaaaaaaa>"))).length ≤ 100
    ∧ some "SUMMARIZED"
        ≠ some (cleanse_text (String.join (List.replicate 15 "<aaaaaaaa>"))) := by
  refine ⟨by decide, by decide, by decide⟩

/-- C3 amended: for a surviving Hacker News story carrying truthy inline
text, the summarizable band (strictly between 100 and 10000) is evaluated
on the RAW text length, before HTML stripping; within the band the stored
text is the summarizer's output on the stripped text, outside the band it
is the stripped raw text. -/
theorem hn_text_band_on_raw_length (summ : String → String → String)
    (title t : String) (h : t ≠ "") :
    (100 < t.length ∧ t.length < 10000 →
        processStoryText summ title (some t) = some (summ title (cleanse_text t)))
    ∧ (¬(100 < t.length ∧ t.length < 10000) →
        processStoryText summ title (some t) = some (cleanse_text t)) := by
  constructor
  · intro hb
    simp [processStoryText, h, hb]
  · intro hb
    simp [processStoryText, h, hb]

/-- Witness for C3 amended: a 101-character tag-free text lies in the raw
band and is stored as the summarizer's output. -/
theorem hn_text_band_on_raw_length_witness :
    String.mk (List.replicate 101 'a') ≠ ""
    ∧ (100 < (String.mk (List.replicate 101 'a')).length
        ∧ (String.mk (List.replicate 101 'a')).length < 10000)
    ∧ processStoryText (fun _ _ => "S") "T" (some (String.mk (List.replicate 101 'a')))
        = some "S" :=
  ⟨by decide, by decide,
   (hn_text_band_on_raw_length (fun _ _ => "S") "T" _ (by decide)).1 (by decide)⟩

/-- C1: a wrapped exception from one entry's article retrieval is never
caught inside `TechFeed.__call__`, so a single bad article aborts the whole
run. Concretely: one feed with two recent entries, where fetching the first
entry's page raises while the second entry's page is retrievable, makes the
entire run end in the wrapped error — the second entry is never processed
and nothing is written to the blob store. -/
theorem tech_feed_bad_article_aborts_run :
    techFeedCall
        (fun l => if l = "http://a" then .error "boom" else .ok "good text")
        (fun _ _ => .ok "S")
        (fun _ => [⟨"A", "http://a", some (some 1000), none⟩,
                   ⟨"B", "http://b", some (some 1000), none⟩])
        0 [("FeedX", "http://feed")] "2026-10-12"
      = .error "Error raised while retrieving article: boom"
    ∧ (fun l => if l = "http://a" then (.error "boom" : Except String String)
          else .ok "good text") "http://b" = .ok "good text" :=
  ⟨rfl, rfl⟩

/-- Helper: when every feed's capped, date-filtered entry list is empty,
the feed loop of `TechFeed.__call__` produces no markdowns and no error. -/
theorem techFeedFeeds_empty_entries (fetch : String → Except String String)
    (summ : String → String → Except String String)
    (parseFeed : String → List FeedEntry) (threshold : Int)
    (feeds : List (String × String))
    (h : ∀ p ∈ feeds, capEntries (filter_entries threshold (parseFeed p.2)) = []) :
    techFeedFeeds fetch summ parseFeed threshold feeds = .ok [] := by
  induction feeds with
  | nil => rfl
  | cons p rest ih =>
      obtain ⟨name, url⟩ := p
      have h1 := h (name, url) (List.mem_cons_self _ _)
      simp only at h1
      rw [techFeedFeeds, h1,
        ih (fun q hq => h q (List.mem_cons_of_mem _ hq))]
      rfl

/-- C9: the GitHub Trending run writes exactly one object keyed by today's
date whatever was rendered, with the empty string as body when nothing was
rendered; a tech-feed run that completes likewise writes exactly one object
keyed by today's date — in particular an empty body when no entries
survive — while the Hacker News run writes nothing when no stories
survive. -/
theorem write_policy_empty_runs :
    (∀ (retrieve : String → Except String (List Repository))
        (langs : List String) (today : String),
        githubTrendingCall retrieve langs today
          = [("github_trending/" ++ today ++ ".md", joinSep (gtMarkdowns retrieve langs))])
    ∧ (∀ (retrieve : String → Except String (List Repository))
        (langs : List String) (today : String),
        gtMarkdowns retrieve langs = [] →
        githubTrendingCall retrieve langs today
          = [("github_trending/" ++ today ++ ".md", "")])
    ∧ (∀ (fetch : String → Except String String)
        (summ : String → String → Except String String)
        (parseFeed : String → List FeedEntry) (threshold : Int)
        (feeds : List (String × String)) (today : String) (mds : List String),
        techFeedFeeds fetch summ parseFeed threshold feeds = .ok mds →
        techFeedCall fetch summ parseFeed threshold feeds today
          = .ok [("tech_feed/" ++ today ++ ".md", joinSep mds)])
    ∧ (∀ (fetch : String → Except String String)
        (summ : String → String → Except String String)
        (parseFeed : String → List FeedEntry) (threshold : Int)
        (feeds : List (String × String)) (today : String),
        (∀ p ∈ feeds, capEntries (filter_entries threshold (parseFeed p.2)) = []) →
        techFeedCall fetch summ parseFeed threshold feeds today
          = .ok [("tech_feed/" ++ today ++ ".md", "")])
    ∧ (∀ (summ : String → String → String) (ids : List Nat)
        (getStory : Nat → RawStory) (today : String),
        get_top_stories summ ids getStory = [] →
        hackerNewsCall summ ids getStory today = []) := by
  refine ⟨fun _ _ _ => rfl, ?_, ?_, ?_, ?_⟩
  · intro retrieve langs today h
    unfold githubTrendingCall
    rw [h]
    rfl
  · intro fetch summ parseFeed threshold feeds today mds h
    unfold techFeedCall
    rw [h]
  · intro fetch summ parseFeed threshold feeds today h
    unfold techFeedCall
    rw [techFeedFeeds_empty_entries fetch summ parseFeed threshold feeds h]
    rfl
  · intro summ ids getStory today h
    simp [hackerNewsCall, h]

/-- Witness for C9: concrete empty runs of the three jobs. -/
theorem write_policy_empty_runs_witness :
    gtMarkdowns (fun _ => .error "down") ["rust"] = []
    ∧ githubTrendingCall (fun _ => .error "down") ["rust"] "2026-10-12"
        = [("github_trending/" ++ "2026-10-12" ++ ".md", "")]
    ∧ techFeedCall (fun _ => .ok "t") (fun _ _ => .ok "S") (fun _ => []) 0
        [("F", "u")] "2026-10-12"
        = .ok [("tech_feed/" ++ "2026-10-12" ++ ".md", "")]
    ∧ get_top_stories (fun _ _ => "S") [] (fun _ => ⟨"t", 0, none, none⟩) = []
    ∧ hackerNewsCall (fun _ _ => "S") [] (fun _ => ⟨"t", 0, none, none⟩)
        "2026-10-12" = [] :=
  ⟨rfl,
   write_policy_empty_runs.2.1 _ _ _ rfl,
   write_policy_empty_runs.2.2.2.1 _ _ _ _ _ _ (fun _ _ => rfl),
   rfl,
   write_policy_empty_runs.2.2.2.2 _ _ _ _ rfl⟩

end Nook
